import Mathlib

/-!
Verification of the web-to-Japanese-markdown pipeline
(`src/main.py`, `src/app.py`, `src/mcp_server.py`).

The HTML documents handled by `WebToMarkdownTranslator.extract_main_content`
are modelled as trees of element and text nodes (the parse trees produced by
`BeautifulSoup(html, "html.parser")`; that parser performs no tree
normalisation, so any nesting of tags that is written in the input appears
verbatim in the tree).  The BeautifulSoup operations the source uses
(`decompose` of unwanted tags, `select_one`, `find("body")`, `str(...)`) are
given executable models below, and the pipeline orchestration of
`WebToMarkdownTranslator` is modelled over explicit environments standing for
the network (`requests`) and the generation service (`google.genai`).
-/

mutual

/-- An HTML node: either a text node (`NavigableString`) or an element
(`Tag`) with a tag name, an attribute list and child nodes.  `html.parser`
lowercases tag and attribute names, so tag names in parse trees are
lowercase. -/
inductive HNode where
  | text (s : String)
  | elem (tag : String) (attrs : List (String × String)) (children : NodeList)

/-- A list of sibling HTML nodes (the `contents` of a tag or of the soup). -/
inductive NodeList where
  | nil
  | cons (head : HNode) (tail : NodeList)

end

/-- The tag names unconditionally decomposed by `extract_main_content`
(`src/main.py` line 77). -/
def removedTags : List String := ["script", "style", "nav", "header", "footer", "aside"]

mutual

/-- Model of `element.decompose()` applied to every element whose tag is in
`removedTags`: an element with a removed tag disappears together with its
whole subtree; other elements keep their (recursively cleaned) children. -/
def stripNode (n : HNode) : Option HNode :=
  match n with
  | .text s => some (.text s)
  | .elem t a c => if t ∈ removedTags then none else some (.elem t a (stripList c))

/-- `stripNode` mapped over a sibling list, dropping removed elements. -/
def stripList (ns : NodeList) : NodeList :=
  match ns with
  | .nil => .nil
  | .cons n rest =>
      match stripNode n with
      | none => stripList rest
      | some m => .cons m (stripList rest)

end

/-- The three CSS selector forms used by `extract_main_content`: a tag-name
selector (`article`), an attribute-value selector (`[role="main"]`) and a
class selector (`.content`). -/
inductive Selector where
  | tag (name : String)
  | attrVal (key value : String)
  | cls (name : String)

/-- First value bound to an attribute name (attribute names are unique in a
parse tree, since `html.parser` hands BeautifulSoup a dict of attributes). -/
def attrLookup (attrs : List (String × String)) (key : String) : Option String :=
  match attrs with
  | [] => none
  | (k, v) :: rest => if k == key then some v else attrLookup rest key

/-- ASCII whitespace, as used to split a `class` attribute value into class
tokens (BeautifulSoup splits multi-valued attributes on runs of `\s`). -/
def isSpaceChar (c : Char) : Bool :=
  c == ' ' || c == '\t' || c == '\n' || c == '\r' || c == '\x0b' || c == '\x0c'

/-- Split a character list into maximal whitespace-free tokens. -/
def splitTokensGo (l : List Char) (acc : List Char) : List String :=
  match l with
  | [] => if acc.isEmpty then [] else [String.mk acc.reverse]
  | c :: rest =>
      if isSpaceChar c then
        if acc.isEmpty then splitTokensGo rest []
        else String.mk acc.reverse :: splitTokensGo rest []
      else splitTokensGo rest (c :: acc)

/-- Class tokens of a `class` attribute value. -/
def classTokens (v : String) : List String := splitTokensGo v.toList []

/-- Whether a node matches a selector.  Text nodes match nothing; a class
selector matches when the class token list contains the name; the attribute
selector requires the exact attribute value. -/
def matchesSelector (sel : Selector) (n : HNode) : Bool :=
  match n with
  | .text _ => false
  | .elem t a _ =>
      match sel with
      | .tag name => t == name
      | .attrVal key value => attrLookup a key == some value
      | .cls name => (attrLookup a "class").isSome
                      && (classTokens ((attrLookup a "class").getD "")).contains name

mutual

/-- Model of `soup.select_one(sel)` (and of `soup.find("body")` for a tag
selector) restricted to one subtree: the first matching element of the
subtree in document order, i.e. a pre-order depth-first search. -/
def selectOneNode (sel : Selector) (n : HNode) : Option HNode :=
  if matchesSelector sel n then some n
  else
    match n with
    | .text _ => none
    | .elem _ _ c => selectOneList sel c

/-- `select_one` over a sibling list: earlier siblings (and their subtrees)
are searched before later ones. -/
def selectOneList (sel : Selector) (ns : NodeList) : Option HNode :=
  match ns with
  | .nil => none
  | .cons n rest =>
      match selectOneNode sel n with
      | some m => some m
      | none => selectOneList sel rest

end

/-- The HTML void elements of BeautifulSoup's HTML tree builders
(`HTMLTreeBuilder.empty_element_tags`); a childless element with one of
these names serializes as `<name/>`. -/
def emptyElementTags : List String :=
  ["area", "base", "br", "col", "embed", "hr", "img", "input", "keygen",
   "link", "menuitem", "meta", "param", "source", "track", "wbr",
   "basefont", "bgsound", "command", "frame", "image", "isindex",
   "nextid", "spacer"]

/-- BeautifulSoup's `minimal` output formatter on one character: `&`, `<`
and `>` become named entities. -/
def escapeMinimalChar (c : Char) : List Char :=
  if c == '&' then "&amp;".toList
  else if c == '<' then "&lt;".toList
  else if c == '>' then "&gt;".toList
  else [c]

/-- Escape a whole string with the `minimal` formatter (applied to text
nodes and attribute values alike). -/
def escapeMinimal (s : String) : String :=
  String.mk (s.toList.flatMap escapeMinimalChar)

/-- BeautifulSoup's `quoted_attribute_value`: double quotes by default;
single quotes when the value holds a double quote but no single quote;
otherwise double quotes with `"` escaped as `&quot;`. -/
def quotedAttributeValue (v : String) : String :=
  if v.toList.contains '"' then
    if v.toList.contains '\'' then
      "\"" ++ String.mk (v.toList.flatMap fun c =>
        if c == '"' then "&quot;".toList else [c]) ++ "\""
    else "'" ++ v ++ "'"
  else "\"" ++ v ++ "\""

/-- Code-point comparison of character lists, as Python compares `str`
values; BeautifulSoup sorts attributes by name when serializing a tag. -/
def charListLt (a b : List Char) : Bool :=
  match a, b with
  | [], [] => false
  | [], _ :: _ => true
  | _ :: _, [] => false
  | x :: xs, y :: ys => x < y || (x == y && charListLt xs ys)

/-- Insertion step of a stable sort of attributes by attribute name. -/
def insertAttr (p : String × String) (l : List (String × String)) :
    List (String × String) :=
  match l with
  | [] => [p]
  | q :: rest =>
      if charListLt q.1.toList p.1.toList then q :: insertAttr p rest
      else p :: q :: rest

/-- Attributes sorted by name, as `Tag.decode` does via `sorted(attrs.items())`. -/
def sortAttrs (l : List (String × String)) : List (String × String) :=
  match l with
  | [] => []
  | p :: rest => insertAttr p (sortAttrs rest)

/-- Rendering of an attribute list: ` key="value"` per attribute, values
escaped with the minimal formatter and quoted. -/
def serializeAttrs (l : List (String × String)) : String :=
  match l with
  | [] => ""
  | (k, v) :: rest =>
      " " ++ k ++ "=" ++ quotedAttributeValue (escapeMinimal v) ++ serializeAttrs rest

/-- Whether a node list is empty. -/
def NodeList.isNil : NodeList → Bool
  | .nil => true
  | .cons _ _ => false

mutual

/-- Model of `str(tag)`: BeautifulSoup's `decode` with the default
`minimal` formatter.  A childless void element renders as `<name .../>`;
any other element renders with an explicit end tag. -/
def serializeNode (n : HNode) : String :=
  match n with
  | .text s => escapeMinimal s
  | .elem t a c =>
      if c.isNil && emptyElementTags.contains t then
        "<" ++ t ++ serializeAttrs (sortAttrs a) ++ "/>"
      else
        "<" ++ t ++ serializeAttrs (sortAttrs a) ++ ">" ++ serializeList c
          ++ "</" ++ t ++ ">"

/-- Model of `str(soup)` for a sibling list: the concatenation of the
serializations of its members. -/
def serializeList (ns : NodeList) : String :=
  match ns with
  | .nil => ""
  | .cons n rest => serializeNode n ++ serializeList rest

end

/-- The prioritized selector list of `extract_main_content`
(`src/main.py` lines 81-89), in source order. -/
def main_selectors : List Selector :=
  [.tag "article", .tag "main", .attrVal "role" "main", .cls "content",
   .cls "post-content", .cls "entry-content", .cls "article-content"]

/-- The `for selector in main_selectors` loop: the first selector with a
match wins, searched in the listed order. -/
def selectFirst (sels : List Selector) (doc : NodeList) : Option HNode :=
  match sels with
  | [] => none
  | s :: rest =>
      match selectOneList s doc with
      | some n => some n
      | none => selectFirst rest doc

/-- Model of `WebToMarkdownTranslator.extract_main_content`
(`src/main.py` lines 64-101): strip the unwanted elements, try the
prioritized selectors, fall back to `body`, then to the whole soup. -/
def extract_main_content (doc : NodeList) : String :=
  let soup := stripList doc
  match selectFirst main_selectors soup with
  | some n => serializeNode n
  | none =>
      match selectOneList (.tag "body") soup with
      | some b => serializeNode b
      | none => serializeList soup

/-- The nodes whose serialization `extract_main_content` returns: the
selected element, else the `body` element, else the whole stripped soup. -/
def extract_nodes (doc : NodeList) : NodeList :=
  let soup := stripList doc
  match selectFirst main_selectors soup with
  | some n => .cons n .nil
  | none =>
      match selectOneList (.tag "body") soup with
      | some b => .cons b .nil
      | none => soup

mutual

/-- No element of the subtree carries a tag from `removedTags`. -/
def noBannedNode (n : HNode) : Bool :=
  match n with
  | .text _ => true
  | .elem t _ c => if t ∈ removedTags then false else noBannedList c

/-- No element under any member of the sibling list carries a tag from
`removedTags`. -/
def noBannedList (ns : NodeList) : Bool :=
  match ns with
  | .nil => true
  | .cons n rest => noBannedNode n && noBannedList rest

end




/-! ## Pipeline orchestration (`WebToMarkdownTranslator`, `src/main.py`)

The two effectful collaborators are modelled as explicit environment
values: the HTTP layer (`requests.get` + `raise_for_status`) as a
`FetchOutcome`, and the generation service
(`client.models.generate_content`) as a function from the prompt to a
`GenOutcome`.  Parsing of the fetched text by `BeautifulSoup` is total, so
the fetched page is carried directly as its parse tree.  Exceptions are
modelled as `Except.error` carrying the exception message. -/

/-- What one call of `requests.get(url, ...)` does: either a transport
failure (`requests.RequestException` with message `msg`), or an HTTP
response with a final status code and a page body (carried as its parse
tree). -/
inductive FetchOutcome where
  | transportError (msg : String)
  | response (status : Nat) (doc : NodeList)

/-- Message of the `requests.HTTPError` produced by
`Response.raise_for_status` (the reason phrase and URL parts of the real
message are elided; only the fact that some message exists matters here). -/
def httpErrorString (status : Nat) : String :=
  toString status ++ (if status < 500 then " Client Error" else " Server Error")

/-- Model of `WebToMarkdownTranslator.fetch_web_content`
(`src/main.py` lines 39-62): any `requests.RequestException` — a transport
failure, or the `HTTPError` that `raise_for_status` raises exactly for
status codes in `[400, 600)` — is re-raised as a `RequestException` whose
message prefixes the cause with `Web取得エラー: `. -/
def fetch_web_content (outcome : FetchOutcome) : Except String NodeList :=
  match outcome with
  | .transportError msg => .error ("Web取得エラー: " ++ msg)
  | .response status doc =>
      if 400 ≤ status ∧ status < 600 then
        .error ("Web取得エラー: " ++ httpErrorString status)
      else
        .ok doc

/-- `raise_for_status` raises (hence `fetch_web_content` fails) exactly on
a transport failure or a status code in `[400, 600)`. -/
def fetchFails (outcome : FetchOutcome) : Bool :=
  match outcome with
  | .transportError _ => true
  | .response status _ => if 400 ≤ status ∧ status < 600 then true else false

/-- What one call of the generation service does: raise (any exception,
e.g. quota or network), or respond with `response.text`, which may be
absent (`None`). -/
inductive GenOutcome where
  | failure (msg : String)
  | success (text : Option String)

/-- The fixed translation prompt of `translate_to_japanese`
(`src/main.py` lines 113-121): instructions followed by the content. -/
def translationPrompt (content : String) : String :=
  "\n以下のマークダウンコンテンツを日本語に翻訳してください。\n" ++
  "マークダウンの書式（#、*、[]()など）は保持し、テキスト部分のみを自然な日本語に翻訳してください。\n" ++
  "技術的な用語や固有名詞は適切に日本語化してください。\n" ++
  "URLやコードブロックはそのまま保持してください。\n" ++
  "ただしコードブロックの言語が明記されていない場合は、推測してください。\n\n" ++
  content ++ "\n"

/-- Model of `WebToMarkdownTranslator.translate_to_japanese`
(`src/main.py` lines 103-129): send the prompt to the service once; on any
exception re-raise `Exception("翻訳エラー: " + cause)`; on success return
`response.text or ""`, so an absent text becomes the empty string. -/
def translate_to_japanese (generate : String → GenOutcome) (content : String) :
    Except String String :=
  match generate (translationPrompt content) with
  | .failure msg => .error ("翻訳エラー: " ++ msg)
  | .success t => .ok (t.getD "")

/-- The pipeline's environment: the network outcome for the one fetch, the
generation service, and the external `markdownify` converter (`md(...)`,
a pure function of the HTML fragment). -/
structure PipelineEnv where
  fetchOutcome : FetchOutcome
  generate : String → GenOutcome
  markdownify : String → String

/-- Model of `WebToMarkdownTranslator.html_to_markdown`
(`src/main.py` lines 131-141): delegate to the external converter. -/
def html_to_markdown (env : PipelineEnv) (html : String) : String :=
  env.markdownify html

/-- The pipeline stages, recorded in invocation order. -/
inductive Stage where
  | fetch
  | extract
  | convert
  | translate
deriving DecidableEq

/-- Model of `WebToMarkdownTranslator.process_url_to_markdown`
(`src/main.py` lines 169-183): fetch, extract, convert, translate in
sequence; the first exception aborts the run and propagates.  The second
component records which stages were invoked. -/
def process_url_to_markdown (env : PipelineEnv) :
    Except String String × List Stage :=
  match fetch_web_content env.fetchOutcome with
  | .error e => (.error e, [Stage.fetch])
  | .ok doc =>
      let main_content := extract_main_content doc
      let markdown_content := html_to_markdown env main_content
      match translate_to_japanese env.generate markdown_content with
      | .error e =>
          (.error e, [Stage.fetch, Stage.extract, Stage.convert, Stage.translate])
      | .ok translated =>
          (.ok translated, [Stage.fetch, Stage.extract, Stage.convert, Stage.translate])

/-- Model of `WebToMarkdownTranslator.translate_text_to_japanese`
(`src/main.py` lines 185-195): translation only. -/
def translate_text_to_japanese (env : PipelineEnv) (text : String) :
    Except String String :=
  translate_to_japanese env.generate text

/-- The `ValueError` message of `WebToMarkdownTranslator.__init__`
(`src/main.py` lines 32-35). -/
def configErrorMessage : String :=
  "Gemini APIキーが設定されていません。GEMINI_API_KEY環境変数を設定してください。"

/-- Model of `WebToMarkdownTranslator.__init__` (`src/main.py` lines
21-37): `api_key` is the explicit parameter (`none` = not passed),
`envKey` the value of the `GEMINI_API_KEY` environment variable (`none` =
unset).  The environment is consulted only when the parameter is `None`;
a falsy effective key (`None` or `""`) raises `ValueError`; otherwise the
client is built with the effective key (returned here). -/
def translatorInit (api_key : Option String) (envKey : Option String) :
    Except String String :=
  let api_key := match api_key with
    | none => envKey
    | some k => some k
  match api_key with
  | none => .error configErrorMessage
  | some k => if k = "" then .error configErrorMessage else .ok k

/-! ## `get_filename_from_url` (`src/app.py` lines 29-40)

The helper uses `urllib.parse.urlparse` for the host (`netloc`) and `path`
components.  CPython's `urlsplit`/`urlparse` (Python 3.11,
`urllib/parse.py`) is modelled below on character lists.  Python's regex
class `\w` is Unicode-aware; it is modelled here on its ASCII fragment
`[A-Za-z0-9_]`.  The `ValueError` branches of `urlsplit` (unbalanced
IPv6 brackets, non-ASCII netloc checks) concern inputs outside the scope
of the claims and are not modelled. -/

/-- Leading C0-control-or-space characters, stripped from the URL
(`_WHATWG_C0_CONTROL_OR_SPACE`). -/
def isC0ControlOrSpace (c : Char) : Bool := c.toNat ≤ 0x20

/-- Remove `\t`, `\r` and `\n` anywhere in the URL
(`_UNSAFE_URL_BYTES_TO_REMOVE`). -/
def removeUnsafeURLBytes (l : List Char) : List Char :=
  l.filter fun c => !(c == '\t' || c == '\r' || c == '\n')

/-- The characters valid in a scheme name (`scheme_chars`). -/
def schemeChars : List Char :=
  "abcdefghijklmnopqrstuvwxyzABCDEFGHIJKLMNOPQRSTUVWXYZ0123456789+-.".toList

/-- Split at the first occurrence of a character, the separator excluded;
`none` when the character does not occur (Python `str.split(c, 1)` /
`str.find`). -/
def splitOnFirstChar (c : Char) (l : List Char) : Option (List Char × List Char) :=
  match l with
  | [] => none
  | x :: rest =>
      if x == c then some ([], rest)
      else
        match splitOnFirstChar c rest with
        | none => none
        | some (a, b) => some (x :: a, b)

/-- The scheme-splitting step of `urlsplit`: when a `:` occurs at a
positive index, the first character is an ASCII letter and everything
before the `:` consists of scheme characters, the scheme is split off and
lowercased; otherwise the URL is left whole. -/
def urlsplitScheme (u : List Char) : String × List Char :=
  match splitOnFirstChar ':' u with
  | none => ("", u)
  | some (before, after) =>
      if before ≠ [] ∧ (before.headD ' ').isAlpha ∧
          before.all (fun c => schemeChars.contains c) then
        (String.mk (before.map Char.toLower), after)
      else ("", u)

/-- The schemes for which `urlparse` splits `;params` off the path
(`uses_params`). -/
def uses_params : List String :=
  ["", "ftp", "hdl", "prospero", "http", "imap", "https", "shttp", "rtsp",
   "rtsps", "rtspu", "sip", "sips", "mms", "sftp", "tel"]

/-- Index of the first occurrence of `c` at or after `start`
(Python `str.find(c, start)`). -/
def findIdxFrom (c : Char) (start : Nat) (l : List Char) : Option Nat :=
  ((l.drop start).findIdx? (· == c)).map (· + start)

/-- Index of the last occurrence of `c` (Python `str.rfind(c)`). -/
def lastIdxOf (c : Char) (l : List Char) : Option Nat :=
  (l.reverse.findIdx? (· == c)).map (fun j => l.length - 1 - j)

/-- CPython's `_splitparams`: when the path has a `/`, only a `;` in the
last segment starts the params; otherwise the first `;` does. -/
def splitParams (p : List Char) : List Char × List Char :=
  if p.contains '/' then
    match lastIdxOf '/' p with
    | some r =>
        match findIdxFrom ';' r p with
        | none => (p, [])
        | some i => (p.take i, p.drop (i + 1))
    | none => (p, [])
  else
    match p.findIdx? (· == ';') with
    | none => (p, [])
    | some i => (p.take i, p.drop (i + 1))

/-- The result fields of `urlparse` used here. -/
structure UrlParseResult where
  scheme : String
  netloc : String
  path : String
  params : String
  query : String
  fragment : String

/-- Model of `urllib.parse.urlparse` (default arguments): WHATWG
pre-cleaning, scheme split, netloc split after `//` up to the first of
`/?#`, fragment split at the first `#`, query split at the first `?`,
then params split for the schemes in `uses_params`. -/
def urlparseModel (url : String) : UrlParseResult :=
  let u := removeUnsafeURLBytes (url.toList.dropWhile isC0ControlOrSpace)
  let su := urlsplitScheme u
  let scheme := su.1
  let u := su.2
  let nu : List Char × List Char :=
    match u with
    | '/' :: '/' :: rest =>
        (rest.takeWhile fun c => !(['/', '?', '#'].contains c),
         rest.dropWhile fun c => !(['/', '?', '#'].contains c))
    | _ => ([], u)
  let netloc := nu.1
  let u := nu.2
  let uf : List Char × List Char :=
    match splitOnFirstChar '#' u with
    | some ab => ab
    | none => (u, [])
  let fragment := uf.2
  let uq : List Char × List Char :=
    match splitOnFirstChar '?' uf.1 with
    | some ab => ab
    | none => (uf.1, [])
  let query := uq.2
  let pp : List Char × List Char :=
    if uses_params.contains scheme ∧ uq.1.contains ';' then splitParams uq.1
    else (uq.1, [])
  { scheme := scheme, netloc := String.mk netloc, path := String.mk pp.1,
    params := String.mk pp.2, query := String.mk query,
    fragment := String.mk fragment }

/-- One scan step of Python `str.replace(pat, "")`: non-overlapping
occurrences removed left to right, scanning resuming after each removed
occurrence.  The fuel argument (initialised to the list length, which
bounds the number of steps) makes the recursion structural. -/
def removeAllAux (pat : List Char) : Nat → List Char → List Char
  | 0, l => l
  | _, [] => []
  | fuel + 1, c :: rest =>
      if pat.isPrefixOf (c :: rest) then
        removeAllAux pat fuel (rest.drop (pat.length - 1))
      else c :: removeAllAux pat fuel rest

/-- Python `s.replace(pat, "")` for a non-empty pattern. -/
def removeAllOccurrences (pat l : List Char) : List Char :=
  removeAllAux pat l.length l

/-- Python `s.strip("/")`: all leading and trailing occurrences removed. -/
def stripChar (c : Char) (l : List Char) : List Char :=
  ((l.dropWhile (· == c)).reverse.dropWhile (· == c)).reverse

/-- The ASCII fragment of Python's regex class `\w`. -/
def isWordCharAscii (c : Char) : Bool := c.isAlphanum || c == '_'

/-- The characters kept by `re.sub(r"[^\w\-_.]", "_", ...)`. -/
def isKeptFilenameChar (c : Char) : Bool := isWordCharAscii c || c == '-' || c == '.'

/-- One character of the `re.sub` sanitisation. -/
def sanitizeFilenameChar (c : Char) : Char := if isKeptFilenameChar c then c else '_'

/-- Model of `get_filename_from_url` (`src/app.py` lines 29-40): every
occurrence of `"www."` is removed from the netloc, the path is stripped of
leading/trailing `/` and its remaining `/` become `_`, domain and path are
joined with `_` when the path is non-empty, every character outside
`[\w\-_.]` becomes `_`, and `.md` is appended. -/
def get_filename_from_url (url : String) : String :=
  let parsed := urlparseModel url
  let domain := removeAllOccurrences "www.".toList parsed.netloc.toList
  let path := (stripChar '/' parsed.path.toList).map fun c =>
    if c == '/' then '_' else c
  let filename := if path.isEmpty then domain else domain ++ '_' :: path
  String.mk (filename.map sanitizeFilenameChar) ++ ".md"

/-! ## Lemmas about stripping and selection -/

mutual

/-- A node surviving the decompose pass has no removed tag anywhere. -/
theorem noBanned_stripNode (n : HNode) :
    ∀ m, stripNode n = some m → noBannedNode m = true := by
  intro m h
  cases n with
  | text s =>
      simp [stripNode] at h
      rw [← h]
      simp [noBannedNode]
  | elem t a c =>
      by_cases ht : t ∈ removedTags
      · simp [stripNode, ht] at h
      · simp [stripNode, ht] at h
        rw [← h]
        simp [noBannedNode, ht, noBanned_stripList c]

/-- The decompose pass leaves no removed tag in the sibling list. -/
theorem noBanned_stripList (ns : NodeList) :
    noBannedList (stripList ns) = true := by
  cases ns with
  | nil => simp [stripList, noBannedList]
  | cons n rest =>
      cases hsn : stripNode n with
      | none => simpa [stripList, hsn] using noBanned_stripList rest
      | some m =>
          simp [stripList, hsn, noBannedList, noBanned_stripNode n m hsn,
            noBanned_stripList rest]

end

mutual

/-- `select_one` on a subtree with no removed tag returns a subtree with no
removed tag. -/
theorem selectOneNode_noBanned (sel : Selector) (n : HNode) :
    ∀ m, selectOneNode sel n = some m → noBannedNode n = true →
      noBannedNode m = true := by
  intro m h hb
  rw [selectOneNode.eq_def] at h
  by_cases hm : matchesSelector sel n
  · rw [if_pos hm] at h
    cases h
    exact hb
  · rw [if_neg hm] at h
    cases n with
    | text s => exact absurd h (by simp)
    | elem t a c =>
        rw [noBannedNode.eq_def] at hb
        simp only [] at h hb
        by_cases ht : t ∈ removedTags
        · rw [if_pos ht] at hb
          exact absurd hb (by simp)
        · rw [if_neg ht] at hb
          exact selectOneList_noBanned sel c m h hb

/-- `select_one` on a sibling list with no removed tag returns a subtree
with no removed tag. -/
theorem selectOneList_noBanned (sel : Selector) (ns : NodeList) :
    ∀ m, selectOneList sel ns = some m → noBannedList ns = true →
      noBannedNode m = true := by
  intro m h hb
  cases ns with
  | nil => exact absurd h (by simp [selectOneList])
  | cons n rest =>
      rw [noBannedList, Bool.and_eq_true] at hb
      cases hsn : selectOneNode sel n with
      | some k =>
          rw [selectOneList, hsn] at h
          cases h
          exact selectOneNode_noBanned sel n _ hsn hb.1
      | none =>
          rw [selectOneList, hsn] at h
          exact selectOneList_noBanned sel rest m h hb.2

end

/-- The selector loop returns a subtree of its argument, so when the
argument has no removed tag, neither has the returned subtree. -/
theorem selectFirst_noBanned (sels : List Selector) (ns : NodeList) :
    ∀ m, selectFirst sels ns = some m → noBannedList ns = true →
      noBannedNode m = true := by
  induction sels with
  | nil =>
      intro m h _
      exact absurd h (by simp [selectFirst])
  | cons s rest ih =>
      intro m h hb
      cases hs : selectOneList s ns with
      | some k =>
          rw [selectFirst, hs] at h
          cases h
          exact selectOneList_noBanned s ns m hs hb
      | none =>
          rw [selectFirst, hs] at h
          exact ih m h hb

/-! ## Claim theorems -/

/-- C3: for every HTML input, what `extract_main_content` returns is the
serialization of `extract_nodes`, and those nodes contain no `script`,
`style`, `nav`, `header`, `footer` or `aside` element, whichever selector
matched and whichever fallback was taken. -/
theorem extract_no_removed_tags (doc : NodeList) :
    extract_main_content doc = serializeList (extract_nodes doc) ∧
    noBannedList (extract_nodes doc) = true := by
  have hstrip := noBanned_stripList doc
  unfold extract_main_content extract_nodes
  cases hf : selectFirst main_selectors (stripList doc) with
  | some n =>
      have hn := selectFirst_noBanned main_selectors (stripList doc) n hf hstrip
      simp [hf, serializeList, String.append_empty, noBannedList, hn]
  | none =>
      cases hb : selectOneList (.tag "body") (stripList doc) with
      | some b =>
          have hbn := selectOneList_noBanned (.tag "body") (stripList doc) b hb hstrip
          simp [hf, hb, serializeList, String.append_empty, noBannedList, hbn]
      | none => simp [hf, hb, hstrip]

/-- C1 (amended): whenever an `article` element is still present after the
boilerplate-removal pass, `extract_main_content` returns the serialization
of the first such element in document order — the `article` selector is
tried first, so any `main`, `[role="main"]` or class-selector candidates
also present are ignored. -/
theorem extract_article_first (doc : NodeList) (a : HNode)
    (h : selectOneList (Selector.tag "article") (stripList doc) = some a) :
    extract_main_content doc = serializeNode a := by
  unfold extract_main_content
  simp [main_selectors, selectFirst, h]

/-- Witness for `extract_article_first`: a document holding both an
`article` and a `main` element yields the `article` subtree. -/
theorem extract_article_first_witness :
    extract_main_content
      (.cons (.elem "article" [] (.cons (.text "A") .nil))
        (.cons (.elem "main" [] (.cons (.text "M") .nil)) .nil))
      = "<article>A</article>" :=
  extract_article_first
    (.cons (.elem "article" [] (.cons (.text "A") .nil))
      (.cons (.elem "main" [] (.cons (.text "M") .nil)) .nil))
    (.elem "article" [] (.cons (.text "A") .nil)) rfl

/-- C1 as stated is false: (i) an input that does contain an `<article>`
element — nested inside a `<nav>` — has lower priority than a sibling
`<main>`, because the `nav` subtree (the article with it) is decomposed
before selection; (ii) even a selected article is not returned verbatim
when it contains a removed element (`<script>`), since its subtree is
serialized after decomposition. -/
theorem extract_article_cex :
    selectOneList (Selector.tag "article")
      (.cons (.elem "nav" []
        (.cons (.elem "article" [] (.cons (.text "A") .nil)) .nil))
        (.cons (.elem "main" [] (.cons (.text "M") .nil)) .nil))
      = some (.elem "article" [] (.cons (.text "A") .nil)) ∧
    extract_main_content
      (.cons (.elem "nav" []
        (.cons (.elem "article" [] (.cons (.text "A") .nil)) .nil))
        (.cons (.elem "main" [] (.cons (.text "M") .nil)) .nil))
      = "<main>M</main>" ∧
    "<main>M</main>"
      ≠ serializeNode (.elem "article" [] (.cons (.text "A") .nil)) ∧
    extract_main_content
      (.cons (.elem "article" []
        (.cons (.elem "script" [] (.cons (.text "s") .nil))
          (.cons (.text "keep") .nil))) .nil)
      = "<article>keep</article>" ∧
    serializeNode (.elem "article" []
        (.cons (.elem "script" [] (.cons (.text "s") .nil))
          (.cons (.text "keep") .nil)))
      = "<article><script>s</script>keep</article>" :=
  ⟨rfl, rfl, by decide, rfl, rfl⟩

/-- C4 (amended): when none of the seven selectors matches after
boilerplate removal, `extract_main_content` returns the serialization of
the first `body` element remaining after removal; when no `body` remains
after removal (in particular when the input has none), it returns the
serialization of the whole stripped soup.  Extraction is a total
function, so it returns some string on every input. -/
theorem extract_body_fallback (doc : NodeList)
    (h : selectFirst main_selectors (stripList doc) = none) :
    (∀ b, selectOneList (Selector.tag "body") (stripList doc) = some b →
      extract_main_content doc = serializeNode b) ∧
    (selectOneList (Selector.tag "body") (stripList doc) = none →
      extract_main_content doc = serializeList (stripList doc)) := by
  constructor
  · intro b hb
    unfold extract_main_content
    simp [h, hb]
  · intro hb
    unfold extract_main_content
    simp [h, hb]

/-- Witness for `extract_body_fallback`: a plain `body` document returns
the `body` subtree; a document with neither selectors nor `body` returns
the whole (stripped) soup. -/
theorem extract_body_fallback_witness :
    extract_main_content
      (.cons (.elem "body" [] (.cons (.text "hi") .nil)) .nil)
      = "<body>hi</body>" ∧
    extract_main_content (.cons (.text "plain") .nil) = "plain" :=
  ⟨(extract_body_fallback
      (.cons (.elem "body" [] (.cons (.text "hi") .nil)) .nil) rfl).1
      (.elem "body" [] (.cons (.text "hi") .nil)) rfl,
    (extract_body_fallback (.cons (.text "plain") .nil) rfl).2 rfl⟩

/-- C4 as stated is false: (i) for the input `<nav><body>x</body></nav>`
no selector matches and the input does contain a `<body>` element, yet the
result is the empty string (the `body` was removed with the enclosing
`nav`), not the body subtree; (ii) for the input `<script>s</script>t`,
which has no `body`, the result is the stripped soup `"t"`, not the
serialization of the whole parsed document. -/
theorem extract_body_fallback_cex :
    selectFirst main_selectors
      (stripList (.cons (.elem "nav" []
        (.cons (.elem "body" [] (.cons (.text "x") .nil)) .nil)) .nil)) = none ∧
    selectOneList (Selector.tag "body")
      (.cons (.elem "nav" []
        (.cons (.elem "body" [] (.cons (.text "x") .nil)) .nil)) .nil)
      = some (.elem "body" [] (.cons (.text "x") .nil)) ∧
    extract_main_content
      (.cons (.elem "nav" []
        (.cons (.elem "body" [] (.cons (.text "x") .nil)) .nil)) .nil) = "" ∧
    serializeNode (.elem "body" [] (.cons (.text "x") .nil)) = "<body>x</body>" ∧
    "" ≠ "<body>x</body>" ∧
    extract_main_content
      (.cons (.elem "script" [] (.cons (.text "s") .nil))
        (.cons (.text "t") .nil)) = "t" ∧
    serializeList
      (.cons (.elem "script" [] (.cons (.text "s") .nil))
        (.cons (.text "t") .nil)) = "<script>s</script>t" ∧
    "t" ≠ "<script>s</script>t" :=
  ⟨rfl, rfl, rfl, rfl, by decide, rfl, rfl, by decide⟩

/-- C2 (amended): whenever the fetch stage fails — a transport failure, or
an HTTP status in `[400, 600)`, the exact range `raise_for_status` raises
for — `process_url_to_markdown` raises a fetch error (message prefixed
`Web取得エラー: `) and invokes no further stage: the recorded trace is the
fetch alone, and no output is produced. -/
theorem fetch_failure_aborts (env : PipelineEnv)
    (h : fetchFails env.fetchOutcome = true) :
    ∃ m, process_url_to_markdown env
      = (Except.error ("Web取得エラー: " ++ m), [Stage.fetch]) := by
  obtain ⟨fo, gen, md⟩ := env
  cases fo with
  | transportError msg => exact ⟨msg, rfl⟩
  | response status doc =>
      by_cases hc : 400 ≤ status ∧ status < 600
      · refine ⟨httpErrorString status, ?_⟩
        simp [process_url_to_markdown, fetch_web_content, hc]
      · simp [fetchFails, hc] at h

/-- Witness for `fetch_failure_aborts`: an HTTP 404 response aborts the
pipeline at the fetch stage. -/
theorem fetch_failure_aborts_witness :
    ∃ m, process_url_to_markdown
      ⟨FetchOutcome.response 404 NodeList.nil,
        fun _ => GenOutcome.success (some "x"), id⟩
      = (Except.error ("Web取得エラー: " ++ m), [Stage.fetch]) :=
  fetch_failure_aborts
    ⟨FetchOutcome.response 404 NodeList.nil,
      fun _ => GenOutcome.success (some "x"), id⟩ rfl

/-- C2 as stated is false at an informational status: 103 is not a
2xx/3xx status, yet `raise_for_status` does not raise for it, so the
pipeline proceeds through extraction, conversion and translation and
returns an output. -/
theorem fetch_failure_aborts_cex :
    ¬(200 ≤ 103 ∧ 103 < 400) ∧
    process_url_to_markdown
      ⟨FetchOutcome.response 103 (.cons (.text "hello") .nil),
        fun _ => GenOutcome.success (some "訳文"), id⟩
      = (Except.ok "訳文",
          [Stage.fetch, Stage.extract, Stage.convert, Stage.translate]) :=
  ⟨by decide, rfl⟩

/-- C6: when the generation service raises (with message `msg`) and the
fetch succeeds, `process_url_to_markdown` raises the translation error
`翻訳エラー: msg` — carrying the cause — after invoking each stage exactly
once (no retry), and `translate_text_to_japanese` raises the same
translation error on every text. -/
theorem translation_failure_propagates (env : PipelineEnv) (msg : String)
    (doc : NodeList)
    (hg : ∀ p, env.generate p = GenOutcome.failure msg)
    (hf : fetch_web_content env.fetchOutcome = Except.ok doc) :
    process_url_to_markdown env
      = (Except.error ("翻訳エラー: " ++ msg),
          [Stage.fetch, Stage.extract, Stage.convert, Stage.translate]) ∧
    ∀ text, translate_text_to_japanese env text
      = Except.error ("翻訳エラー: " ++ msg) := by
  constructor
  · simp [process_url_to_markdown, hf, translate_to_japanese, hg]
  · intro text
    simp [translate_text_to_japanese, translate_to_japanese, hg]

/-- Witness for `translation_failure_propagates`: a quota failure of the
service surfaces as `翻訳エラー: quota exceeded` from both entry points. -/
theorem translation_failure_propagates_witness :
    process_url_to_markdown
      ⟨FetchOutcome.response 200 (.cons (.text "hi") .nil),
        fun _ => GenOutcome.failure "quota exceeded", id⟩
      = (Except.error "翻訳エラー: quota exceeded",
          [Stage.fetch, Stage.extract, Stage.convert, Stage.translate]) ∧
    translate_text_to_japanese
      ⟨FetchOutcome.response 200 (.cons (.text "hi") .nil),
        fun _ => GenOutcome.failure "quota exceeded", id⟩ "# Title"
      = Except.error "翻訳エラー: quota exceeded" :=
  ⟨(translation_failure_propagates
      ⟨FetchOutcome.response 200 (.cons (.text "hi") .nil),
        fun _ => GenOutcome.failure "quota exceeded", id⟩
      "quota exceeded" (.cons (.text "hi") .nil) (fun _ => rfl) rfl).1,
    (translation_failure_propagates
      ⟨FetchOutcome.response 200 (.cons (.text "hi") .nil),
        fun _ => GenOutcome.failure "quota exceeded", id⟩
      "quota exceeded" (.cons (.text "hi") .nil) (fun _ => rfl) rfl).2 "# Title"⟩

/-- C7: when the generation service responds successfully but with no text
(`response.text` is `None`), `translate_to_japanese` returns the empty
string as an ordinary success, for every content; it does not raise. -/
theorem empty_translation_is_success (content : String) :
    translate_to_japanese (fun _ => GenOutcome.success none) content
      = Except.ok "" := rfl

/-- C8 (amended): the constructor takes the key from the explicit
parameter whenever that parameter is not `None`, consults the environment
only when the parameter is `None`, and raises the configuration
`ValueError` at construction time exactly when the effective key is falsy
— the parameter is the empty string, or the parameter is `None` and the
environment variable is unset or empty. -/
theorem init_effective_key (p e : Option String) :
    (∀ k, p = some k → k ≠ "" → translatorInit p e = Except.ok k) ∧
    (p = none → ∀ k, e = some k → k ≠ "" → translatorInit p e = Except.ok k) ∧
    ((∃ m, translatorInit p e = Except.error m) ↔
      p = some "" ∨ (p = none ∧ (e = none ∨ e = some ""))) := by
  refine ⟨?_, ?_, ?_⟩
  · intro k hp hk
    subst hp
    simp [translatorInit, hk]
  · intro hp k he hk
    subst hp
    subst he
    simp [translatorInit, hk]
  · cases p with
    | some k =>
        by_cases hk : k = ""
        · subst hk
          simp [translatorInit]
        · simp [translatorInit, hk]
    | none =>
        cases e with
        | none => simp [translatorInit]
        | some k =>
            by_cases hk : k = ""
            · subst hk
              simp [translatorInit]
            · simp [translatorInit, hk]

/-- Witness for `init_effective_key`: a non-empty explicit key is used; a
non-empty environment key is used when no parameter is passed; an explicit
empty key is a configuration error. -/
theorem init_effective_key_witness :
    translatorInit (some "sk-param") none = Except.ok "sk-param" ∧
    translatorInit none (some "sk-env") = Except.ok "sk-env" ∧
    (∃ m, translatorInit (some "") (some "sk-env") = Except.error m) :=
  ⟨(init_effective_key (some "sk-param") none).1 "sk-param" rfl (by decide),
    (init_effective_key none (some "sk-env")).2.1 rfl "sk-env" rfl (by decide),
    (init_effective_key (some "") (some "sk-env")).2.2.mpr (Or.inl rfl)⟩

/-- C8 as stated is false: with an explicit empty-string key and a valid
key in the environment, neither key source is absent, yet the constructor
raises the configuration error — the environment value (a valid key, as
the second conjunct shows) is never consulted. -/
theorem init_effective_key_cex :
    translatorInit (some "") (some "AIzaSyValidKey") = Except.error configErrorMessage ∧
    translatorInit none (some "AIzaSyValidKey") = Except.ok "AIzaSyValidKey" :=
  ⟨rfl, rfl⟩

/-- C10: an explicit empty-string `api_key` parameter raises the
configuration error whatever the environment holds — the environment is
consulted only when the parameter is `None`, as the second conjunct
illustrates. -/
theorem init_empty_param_overrides_env :
    (∀ e : Option String, translatorInit (some "") e = Except.error configErrorMessage) ∧
    translatorInit none (some "AIzaEnvKey") = Except.ok "AIzaEnvKey" :=
  ⟨fun _ => rfl, rfl⟩

/-- Every character the `re.sub` sanitisation emits is kept by the filter
class `[\w\-_.]`. -/
theorem sanitizeFilenameChar_kept (c : Char) :
    isKeptFilenameChar (sanitizeFilenameChar c) = true := by
  unfold sanitizeFilenameChar
  split
  · assumption
  · rfl

/-- C5: the two specified evaluations of `get_filename_from_url`, and in
general the result is a stem of characters from `[\w\-_.]` (the ASCII
fragment of `\w`; every other host/path character has been replaced by
`_`) with the suffix `.md` appended. -/
theorem get_filename_spec :
    get_filename_from_url "https://www.example.com/blog/post-1"
      = "example.com_blog_post-1.md" ∧
    get_filename_from_url "https://example.com" = "example.com.md" ∧
    ∀ url : String,
      (get_filename_from_url url).toList.all isKeptFilenameChar = true ∧
      ∃ stem : String, get_filename_from_url url = stem ++ ".md" := by
  refine ⟨rfl, rfl, ?_⟩
  intro url
  unfold get_filename_from_url
  constructor
  · simp only [String.toList, String.data_append]
    rw [List.all_append]
    apply Bool.and_eq_true_iff.mpr
    constructor
    · rw [List.all_map]
      apply List.all_eq_true.mpr
      intro c _
      exact sanitizeFilenameChar_kept c
    · rfl
  · exact ⟨String.mk _, rfl⟩

/-- C9: `get_filename_from_url` removes every occurrence of `"www."` from
the host, not only a leading prefix: a host `blog.www.example.com` yields
`blog.example.com.md`, and a host `wwww.example.com` yields
`wexample.com.md` (the match starts at the second character). -/
theorem get_filename_removes_all_www :
    get_filename_from_url "https://blog.www.example.com" = "blog.example.com.md" ∧
    get_filename_from_url "https://wwww.example.com" = "wexample.com.md" :=
  ⟨rfl, rfl⟩
